import Mathlib

/-!
Verification of the concurrent session client of the `adk` repository
(`5.5-advanced-sessions`).  The embedding below is a shallow model of

  * `4-programmatic-examples/async_sessions.py`  (AsyncSessionClient, the
    gather-based demo batches `demo_1` ... `demo_4`),
  * `2-rest-api-manager/session_manager.py`      (SessionManager),
  * `3-cli-interactive/create_session.py`        (state construction with
    the `conversation_context` key).

Library semantics used by the source and therefore modelled here:

  * `asyncio.gather(*tasks)` runs all awaitables concurrently with no
    concurrency ceiling and no cross-task ordering constraint, and returns
    the list of results aligned with the order of the input awaitables.
    An execution of a gather over n network operations is modelled as a
    list of atomic events (`start i` when operation i issues its request,
    `complete i` when its response or failure arrives): any interleaving
    in which each operation starts exactly once, completes exactly once,
    and starts before it completes is admissible.
  * `requests.Response.raise_for_status` raises `HTTPError` exactly for
    status codes in 400..599; informational and redirect statuses do not
    raise.
  * Python dict construction and `dict.update` / `dict.get`, modelled by
    insertion-ordered association lists; Python string truthiness
    (`if s:` is false exactly for `None` and `""`).
-/

/-! ## Events and gather schedules -/

/-- An atomic event of a concurrent batch execution: operation `i` issues
its network call, or operation `i`'s network call completes (with success
or failure). -/
inductive Event where
  | start (i : Nat)
  | complete (i : Nat)
deriving DecidableEq

/-- Index of the operation an event belongs to. -/
def eventIdx : Event → Nat
  | .start i => i
  | .complete i => i

/-- Number of occurrences of an event in a schedule. -/
def countE : List Event → Event → Nat
  | [], _ => 0
  | x :: rest, e => (if x = e then 1 else 0) + countE rest e

/-- Position of the first occurrence of an event in a schedule (length of
the schedule when the event is absent). -/
def firstIdx : List Event → Event → Nat
  | [], _ => 0
  | x :: rest, e => if x = e then 0 else firstIdx rest e + 1

/-- Operation `i` behaves like one network call inside the schedule: it
starts exactly once, completes exactly once, and starts before it
completes. -/
def opOk (s : List Event) (i : Nat) : Bool :=
  countE s (.start i) == 1 && countE s (.complete i) == 1 &&
    decide (firstIdx s (.start i) < firstIdx s (.complete i))

/-- Admissible executions of `asyncio.gather` over `n` network
operations: every event belongs to one of the `n` operations, and each
operation contributes one start followed (eventually) by one completion.
`gather` imposes no other ordering constraint across tasks, so every such
interleaving is admissible (network latencies are arbitrary). -/
def validSchedule (n : Nat) (s : List Event) : Bool :=
  (List.range n).all (opOk s) && s.all (fun e => decide (eventIdx e < n))

/-- Number of start events in a schedule. -/
def startsIn : List Event → Nat
  | [] => 0
  | .start _ :: rest => startsIn rest + 1
  | .complete _ :: rest => startsIn rest

/-- Running maximum of the number of in-flight operations, starting from
`c` operations currently in flight (the instrumented-transport counter:
`+1` at each start, `-1` at each completion). -/
def maxInflightAux : Nat → List Event → Nat
  | _, [] => 0
  | c, .start _ :: rest => max (c + 1) (maxInflightAux (c + 1) rest)
  | c, .complete _ :: rest => maxInflightAux (c - 1) rest

/-- Largest number of operations simultaneously in flight at any instant
of the schedule. -/
def maxInflight (s : List Event) : Nat := maxInflightAux 0 s

/-! ## Basic schedule lemmas -/

theorem countE_ne_zero_mem (s : List Event) (e : Event) (h : countE s e ≠ 0) : e ∈ s := by
  induction s with
  | nil => simp [countE] at h
  | cons x rest ih =>
    by_cases hx : x = e
    · subst hx; exact List.mem_cons_self x rest
    · simp [countE, hx] at h
      exact List.mem_cons_of_mem _ (ih h)

theorem validSchedule_count_start {n : Nat} {s : List Event} {i : Nat}
    (h : validSchedule n s = true) (hi : i < n) : countE s (.start i) = 1 := by
  simp only [validSchedule, Bool.and_eq_true, List.all_eq_true] at h
  have := h.1 i (List.mem_range.mpr hi)
  simp only [opOk, Bool.and_eq_true, beq_iff_eq, decide_eq_true_eq] at this
  exact this.1.1

theorem validSchedule_count_complete {n : Nat} {s : List Event} {i : Nat}
    (h : validSchedule n s = true) (hi : i < n) : countE s (.complete i) = 1 := by
  simp only [validSchedule, Bool.and_eq_true, List.all_eq_true] at h
  have := h.1 i (List.mem_range.mpr hi)
  simp only [opOk, Bool.and_eq_true, beq_iff_eq, decide_eq_true_eq] at this
  exact this.1.2

theorem validSchedule_bound {n : Nat} {s : List Event}
    (h : validSchedule n s = true) : ∀ e ∈ s, eventIdx e < n := by
  simp only [validSchedule, Bool.and_eq_true, List.all_eq_true] at h
  intro e he
  have := h.2 e he
  simpa using this

theorem maxInflightAux_le (s : List Event) : ∀ c : Nat, maxInflightAux c s ≤ c + startsIn s := by
  induction s with
  | nil => intro c; simp [maxInflightAux]
  | cons e rest ih =>
    intro c
    cases e with
    | start i =>
      have h := ih (c + 1)
      simp only [maxInflightAux, startsIn]
      exact Nat.max_le.mpr ⟨by omega, by omega⟩
    | complete i =>
      have h := ih (c - 1)
      simp only [maxInflightAux, startsIn]
      omega

theorem startsIn_eq_sum (n : Nat) (s : List Event) (hb : ∀ e ∈ s, eventIdx e < n) :
    startsIn s = ∑ i in Finset.range n, countE s (.start i) := by
  induction s with
  | nil => simp [startsIn, countE]
  | cons e rest ih =>
    have hrest : ∀ x ∈ rest, eventIdx x < n := fun x hx => hb x (List.mem_cons_of_mem _ hx)
    cases e with
    | start j =>
      have hj : j < n := by
        have := hb (Event.start j) (List.mem_cons_self _ _)
        simpa [eventIdx] using this
      have hsplit : ∀ i, countE (Event.start j :: rest) (Event.start i) =
          (if j = i then 1 else 0) + countE rest (Event.start i) := by
        intro i
        simp [countE, Event.start.injEq]
      rw [Finset.sum_congr rfl (fun i _ => hsplit i), Finset.sum_add_distrib]
      have hone : (∑ i in Finset.range n, if j = i then 1 else 0) = 1 := by
        rw [Finset.sum_ite_eq]
        simp [Finset.mem_range.mpr hj]
      rw [hone]
      simp only [startsIn, ih hrest]
      omega
    | complete j =>
      have hsplit : ∀ i, countE (Event.complete j :: rest) (Event.start i) =
          countE rest (Event.start i) := by
        intro i
        simp [countE]
      rw [Finset.sum_congr rfl (fun i _ => hsplit i)]
      simp only [startsIn, ih hrest]

theorem validSchedule_startsIn {n : Nat} {s : List Event}
    (h : validSchedule n s = true) : startsIn s = n := by
  rw [startsIn_eq_sum n s (validSchedule_bound h)]
  have : ∀ i ∈ Finset.range n, countE s (.start i) = 1 := by
    intro i hi
    exact validSchedule_count_start h (Finset.mem_range.mp hi)
  rw [Finset.sum_congr rfl this]
  simp

/-! ## Result collection of a gather

`asyncio.gather(*tasks)` returns the aggregated results in the order of
the input awaitables: each completing task fills its own slot of the
result buffer, independently of completion time.  `execSchedule` replays
a schedule against the buffer; `outcome i` is the value operation `i`
delivers when it completes (for the demo clients this is the
`Optional[str]` the wrapped coroutine returns). -/

def execSchedule {α : Type} (outcome : Nat → α) : List Event → List (Option α) → List (Option α)
  | [], buf => buf
  | .start _ :: rest, buf => execSchedule outcome rest buf
  | .complete i :: rest, buf => execSchedule outcome rest (buf.set i (some (outcome i)))

/-- Result list of an admissible execution of `asyncio.gather` over `n`
operations: an initially empty buffer of `n` slots, filled slot-by-slot
as completions arrive in schedule order. -/
def gatherRun {α : Type} (n : Nat) (outcome : Nat → α) (s : List Event) : List (Option α) :=
  execSchedule outcome s (List.replicate n none)

theorem execSchedule_length {α : Type} (outcome : Nat → α) (s : List Event) :
    ∀ buf : List (Option α), (execSchedule outcome s buf).length = buf.length := by
  induction s with
  | nil => intro buf; rfl
  | cons e rest ih =>
    intro buf
    cases e with
    | start i => exact ih buf
    | complete i =>
      rw [execSchedule, ih (buf.set i (some (outcome i))), List.length_set]

theorem execSchedule_getElem {α : Type} (outcome : Nat → α) (s : List Event) :
    ∀ (buf : List (Option α)) (i : Nat), i < buf.length →
      (execSchedule outcome s buf)[i]? =
        if Event.complete i ∈ s then some (some (outcome i)) else buf[i]? := by
  induction s with
  | nil => intro buf i _; simp [execSchedule]
  | cons e rest ih =>
    intro buf i hi
    cases e with
    | start j =>
      rw [execSchedule, ih buf i hi]
      simp [List.mem_cons]
    | complete j =>
      by_cases hij : j = i
      · subst hij
        have hlen : j < (buf.set j (some (outcome j))).length := by
          rwa [List.length_set]
        rw [execSchedule, ih (buf.set j (some (outcome j))) j hlen]
        by_cases hrest : Event.complete j ∈ rest
        · simp [hrest, List.mem_cons]
        · simp only [hrest, if_false]
          rw [List.getElem?_set_eq_of_lt _ hi]
          simp [List.mem_cons]
      · have hlen : i < (buf.set j (some (outcome j))).length := by
          rwa [List.length_set]
        rw [execSchedule, ih (buf.set j (some (outcome j))) i hlen]
        rw [List.getElem?_set_ne hij]
        have hiff : (Event.complete i ∈ Event.complete j :: rest) ↔ Event.complete i ∈ rest := by
          constructor
          · intro h
            rcases List.mem_cons.mp h with heq | hm
            · exact absurd (Event.complete.inj heq).symm hij
            · exact hm
          · exact fun h => List.mem_cons_of_mem _ h
        simp only [hiff]

/-- The central fan-in property of `asyncio.gather`: whatever the
completion order, an admissible execution fills every slot, and slot `i`
holds the outcome of the operation submitted at index `i`. -/
theorem gatherRun_valid {α : Type} (n : Nat) (outcome : Nat → α) (s : List Event)
    (h : validSchedule n s = true) :
    gatherRun n outcome s = (List.range n).map (fun i => some (outcome i)) := by
  apply List.ext_getElem?
  intro i
  by_cases hi : i < n
  · have hbuf : i < (List.replicate n (none : Option α)).length := by
      rwa [List.length_replicate]
    rw [gatherRun, execSchedule_getElem outcome s _ i hbuf]
    have hmem : Event.complete i ∈ s := by
      apply countE_ne_zero_mem
      rw [validSchedule_count_complete h hi]
      omega
    rw [if_pos hmem]
    rw [List.getElem?_map, List.getElem?_range hi]
    rfl
  · have h₁ : (gatherRun n outcome s).length = n := by
      rw [gatherRun, execSchedule_length, List.length_replicate]
    have h₂ : ((List.range n).map (fun i => some (outcome i))).length = n := by
      rw [List.length_map, List.length_range]
    rw [List.getElem?_eq_none (by omega), List.getElem?_eq_none (by omega)]

/-! ## The demo batches of async_sessions.py -/

/-- Agent identity used by every client in the source
(`AGENT_ID = "dynamic_session_agent"`). -/
def AGENT_ID : String := "dynamic_session_agent"

/-- The three conversations of `demo_4_concurrent_conversations`
(async_sessions.py lines 315-331), verbatim. -/
def conversations : List (String × List String) :=
  [("Alice",
    ["Hi! I'm a software engineer.",
     "I love Python programming.",
     "What do I do for work?"]),
   ("Bob",
    ["Hello! I'm a data scientist.",
     "I work with machine learning.",
     "What's my profession?"]),
   ("Carol",
    ["Hey! I'm a student.",
     "I'm learning computer science.",
     "What am I studying?"])]

/-- The flat task list `all_tasks` built by `demo_4_concurrent_conversations`
(async_sessions.py lines 359-366): for every conversation in order, one
`send_message(session_id, msg)` task per message, all appended to a single
list that is then passed to one `asyncio.gather`.  `sessionIds` is the
name-to-session-id assignment produced by the creation phase. -/
def demo4Tasks (sessionIds : String → String) : List (String × String) :=
  (conversations.map (fun nc => nc.2.map (fun m => (sessionIds nc.1, m)))).flatten

/-- Session id targeted by the operation at index `i` of a batch. -/
def sessionAt (batch : List (String × String)) (i : Nat) : Option String :=
  (batch[i]?).map Prod.fst

/-- The per-session serialization property claimed by the specification:
for every two operations of the batch addressed to the same session id,
the earlier one's network call completes before the later one's begins. -/
def sameSessionSerialized (batch : List (String × String)) (s : List Event) : Bool :=
  (List.range batch.length).all fun i =>
    (List.range batch.length).all fun j =>
      !(decide (i < j) && (sessionAt batch i == sessionAt batch j)) ||
        decide (firstIdx s (.complete i) < firstIdx s (.start j))

/-- An admissible execution of demo_4's nine-message gather in which
Alice's first two messages (indices 0 and 1, same session) are in flight
simultaneously: operation 1 starts before operation 0 completes. -/
def c1Sched : List Event :=
  [.start 0, .start 1, .complete 0, .complete 1,
   .start 2, .complete 2, .start 3, .complete 3, .start 4, .complete 4,
   .start 5, .complete 5, .start 6, .complete 6, .start 7, .complete 7,
   .start 8, .complete 8]

/-- Claim C1, counterexample.  The claim asserts that for any two
operations addressed to the same session id, the earlier one's network
call completes before the later one's begins.  `demo_4` submits all nine
messages of the three conversations to a single `asyncio.gather`, which
imposes no such constraint: the admissible execution `c1Sched` violates
the claimed serialization (operations 0 and 1 both target Alice's
session, yet operation 1 starts before operation 0 completes). -/
theorem c1_counterexample :
    validSchedule 9 c1Sched = true ∧
    sameSessionSerialized (demo4Tasks id) c1Sched = false := by
  decide

/-- Claim C1, amended.  Operations addressed to the same session id carry
no ordering constraint either: within one gather batch an admissible
execution may begin a later same-session operation's network call before
the earlier one's completes.  Concretely, indices 0 and 1 of demo_4's
batch target the same session, and the admissible execution `c1Sched`
starts operation 1 before operation 0 completes. -/
theorem c1_no_serialization :
    validSchedule 9 c1Sched = true ∧
    sessionAt (demo4Tasks id) 0 = sessionAt (demo4Tasks id) 1 ∧
    firstIdx c1Sched (.start 1) < firstIdx c1Sched (.complete 0) := by
  decide

/-- Number of operations of the batch of `demo_1_concurrent_creation`
(async_sessions.py lines 148-170): one `create_session` task per user in
`range(1, 11)`, i.e. ten independent operations in one gather. -/
def demo1N : Nat := 10

/-- The admissible execution in which every operation of an n-operation
gather is in flight at once: all starts happen before any completion
(exactly what `asyncio.gather` does when all network latencies exceed the
submission time). -/
def allAtOnce (n : Nat) : List Event :=
  (List.range n).map Event.start ++ (List.range n).map Event.complete

/-- Claim C2, counterexample.  The claim asserts that a batch of N
operations run under a concurrency ceiling C < N never has more than C
operations simultaneously in flight.  `demo_1` passes its ten creation
tasks to a single unbounded `asyncio.gather`; in the admissible execution
`allAtOnce demo1N` all ten operations are in flight at once, exceeding
every ceiling C < 10 (here C = 9). -/
theorem c2_counterexample :
    validSchedule demo1N (allAtOnce demo1N) = true ∧
    9 < maxInflight (allAtOnce demo1N) := by
  decide

/-- Claim C2, amended.  The batches are executed with no concurrency
ceiling: the only bound on the number of simultaneously in-flight
operations is the batch size itself (`maxInflight s ≤ n` for every
admissible execution, and `allAtOnce` attains that bound). -/
theorem c2_unbounded_fanout (n : Nat) (s : List Event)
    (h : validSchedule n s = true) : maxInflight s ≤ n := by
  have h1 := maxInflightAux_le s 0
  rw [validSchedule_startsIn h] at h1
  simpa [maxInflight] using h1

/-- Witness for `c2_unbounded_fanout` at demo_1's batch size. -/
theorem c2_unbounded_fanout_witness :
    validSchedule demo1N (allAtOnce demo1N) = true ∧
    maxInflight (allAtOnce demo1N) ≤ demo1N :=
  ⟨by decide, c2_unbounded_fanout demo1N (allAtOnce demo1N) (by decide)⟩

/-- Claim C3, confirmed.  Whatever the completion order of an admissible
execution (arbitrary per-operation latencies), the output sequence of the
gather is aligned index-for-index with the input sequence: slot i holds
the outcome of the operation submitted at index i. -/
theorem c3_output_aligned {α : Type} (n : Nat) (outcome : Nat → α)
    (s : List Event) (h : validSchedule n s = true) :
    gatherRun n outcome s = (List.range n).map (fun i => some (outcome i)) :=
  gatherRun_valid n outcome s h

/-- An out-of-order admissible execution of a three-operation gather:
operation 2 completes first, then operation 0, then operation 1. -/
def c3Sched : List Event :=
  [.start 0, .start 1, .start 2, .complete 2, .complete 0, .complete 1]

/-- Witness for `c3_output_aligned`: despite completion order 2, 0, 1 the
result list is aligned with submission order 0, 1, 2. -/
theorem c3_output_aligned_witness :
    validSchedule 3 c3Sched = true ∧
    gatherRun 3 (fun i => i * 10) c3Sched = [some 0, some 10, some 20] :=
  ⟨by decide, (c3_output_aligned 3 (fun i => i * 10) c3Sched (by decide)).trans (by decide)⟩

/-! ## Partial failure inside a batch

`AsyncSessionClient.create_session` and `AsyncSessionClient.send_message`
(async_sessions.py lines 45-80) wrap their entire network interaction in
`try ... except Exception: print(error); return None`.  The raw network
interaction of operation `i` either produces a value or raises an
exception; the wrapper maps this to `Optional[str]`. -/

/-- The `try/except` wrapper of the async client: the return value on
success, `None` on any exception (the exception itself is printed, not
returned). -/
def exceptToOption {ε α : Type} : Except ε α → Option α
  | .ok a => some a
  | .error _ => none

/-- A three-operation batch in which operation 1 raises a read timeout
and the others succeed. -/
def c4OutcomeA : Nat → Except String String
  | 1 => .error "ReadTimeout"
  | i => .ok ("reply " ++ toString i)

/-- The same batch except that operation 1 raises an HTTP 500 error
instead of a timeout. -/
def c4OutcomeB : Nat → Except String String
  | 1 => .error "HTTPError 500"
  | i => .ok ("reply " ++ toString i)

/-- An admissible execution of a three-operation gather. -/
def c4Sched : List Event :=
  [.start 0, .start 1, .start 2, .complete 1, .complete 2, .complete 0]

/-- Claim C4, counterexample.  The claim asserts that each result slot of
a batch holds either the operation's return value or the error it failed
with.  The source wrapper returns `None` on failure, so the batch reports
identical result lists for two runs whose operation 1 failed with
different errors: the failed slot holds `none`, not the error the
operation failed with. -/
theorem c4_counterexample :
    validSchedule 3 c4Sched = true ∧
    c4OutcomeA 1 = Except.error "ReadTimeout" ∧
    c4OutcomeB 1 = Except.error "HTTPError 500" ∧
    gatherRun 3 (fun i => exceptToOption (c4OutcomeA i)) c4Sched =
      gatherRun 3 (fun i => exceptToOption (c4OutcomeB i)) c4Sched ∧
    (gatherRun 3 (fun i => exceptToOption (c4OutcomeA i)) c4Sched)[1]? = some (some none) :=
  ⟨by decide, rfl, rfl, by decide, by decide⟩

/-- Claim C4, amended.  One operation's failure never cancels or blocks
sibling operations: every admissible execution of the batch reports a
per-slot outcome for every index, where slot i holds the operation's
return value on success and `None` on failure (the error itself is
printed, not stored in the slot). -/
theorem c4_partial_failure (n : Nat) (raw : Nat → Except String String)
    (s : List Event) (j : Nat) (hs : validSchedule n s = true) (hj : j < n)
    (hfail : exceptToOption (raw j) = none) :
    (gatherRun n (fun i => exceptToOption (raw i)) s).length = n ∧
    (∀ i, i < n → (gatherRun n (fun i => exceptToOption (raw i)) s)[i]? =
        some (some (exceptToOption (raw i)))) ∧
    (gatherRun n (fun i => exceptToOption (raw i)) s)[j]? = some (some none) := by
  have hg := gatherRun_valid n (fun i => exceptToOption (raw i)) s hs
  refine ⟨?_, ?_, ?_⟩
  · rw [hg, List.length_map, List.length_range]
  · intro i hi
    rw [hg, List.getElem?_map, List.getElem?_range hi]
    rfl
  · rw [hg, List.getElem?_map, List.getElem?_range hj]
    simp [hfail]

/-- Witness for `c4_partial_failure`: in the concrete batch `c4OutcomeA`
operation 1 fails yet operations 0 and 2 complete and are reported, and
the failed slot reports `none`. -/
theorem c4_partial_failure_witness :
    validSchedule 3 c4Sched = true ∧
    exceptToOption (c4OutcomeA 1) = none ∧
    (gatherRun 3 (fun i => exceptToOption (c4OutcomeA i)) c4Sched)[1]? = some (some none) ∧
    (gatherRun 3 (fun i => exceptToOption (c4OutcomeA i)) c4Sched)[0]? =
      some (some (some "reply 0")) :=
  ⟨by decide, by decide,
   (c4_partial_failure 3 c4OutcomeA c4Sched 1 (by decide) (by decide) (by decide)).2.2,
   by
     have h := (c4_partial_failure 3 c4OutcomeA c4Sched 1 (by decide) (by decide)
       (by decide)).2.1 0 (by decide)
     simpa using h⟩

/-! ## Python dicts, truthiness, and the request model

Python dicts with string keys are modelled as insertion-ordered
association lists; all builders below keep keys distinct except where
`dict.update` deliberately overwrites. -/

/-- Python `d.get(k)`: the value at the first matching key, else `None`. -/
def pyGet {α : Type} : List (String × α) → String → Option α
  | [], _ => none
  | (k, v) :: rest, key => if k = key then some v else pyGet rest key

/-- Python `d.get(k, default)`. -/
def pyGetD {α : Type} (d : List (String × α)) (key : String) (dflt : α) : α :=
  match pyGet d key with
  | some v => v
  | none => dflt

/-- Python `d[k] = v`: overwrite in place when the key exists (keeping its
position), else append. -/
def dictSet {α : Type} : List (String × α) → String → α → List (String × α)
  | [], k, v => [(k, v)]
  | (k0, v0) :: rest, k, v =>
      if k0 = k then (k, v) :: rest else (k0, v0) :: dictSet rest k v

/-- Python `d.update(kvs)`. -/
def dictUpdate {α : Type} (d : List (String × α)) (kvs : List (String × α)) :
    List (String × α) :=
  kvs.foldl (fun acc kv => dictSet acc kv.1 kv.2) d

/-- Python truthiness of an optional string argument: `if s:` is false
exactly for `None` and the empty string. -/
def strTruthy : Option String → Bool
  | none => false
  | some s => !(s == "")

/-- Value of an optional argument (only ever read under `strTruthy`). -/
def optVal : Option String → String
  | none => ""
  | some s => s

/-- State dict built by the async and sync clients and by
`SessionManager.create_session` before `kwargs` are merged
(async_sessions.py lines 48-52, multi_user_demo.py lines 27-31,
session_manager.py lines 79-84): `user_name` unconditionally, each
optional key only when its value is truthy. -/
def client_state (user_name : String) (user_email user_preferences : Option String) :
    List (String × String) :=
  [("user_name", user_name)]
    ++ (if strTruthy user_email then [("user_email", optVal user_email)] else [])
    ++ (if strTruthy user_preferences then
          [("user_preferences", optVal user_preferences)] else [])

/-- State dict built by the CLI client `create_session`
(create_session.py lines 84-90), which also has a declared
`conversation_context` parameter filtered by the same truthiness test. -/
def cli_state (user_name : String)
    (user_email user_preferences conversation_context : Option String) :
    List (String × String) :=
  client_state user_name user_email user_preferences
    ++ (if strTruthy conversation_context then
          [("conversation_context", optVal conversation_context)] else [])

/-- State dict posted by `SessionManager.create_session`
(session_manager.py lines 78-87): the declared-parameter dict followed by
`state.update(kwargs)`, which adds every extra keyword argument
unconditionally. -/
def manager_state (user_name : String) (user_email user_preferences : Option String)
    (kwargs : List (String × String)) : List (String × String) :=
  dictUpdate (client_state user_name user_email user_preferences) kwargs

/-- JSON values appearing in the request bodies the clients build:
strings and one level of string-valued dict (the `state` bag). -/
inductive JVal where
  | str (s : String)
  | dict (d : List (String × String))
deriving DecidableEq

/-- An HTTP request as the clients assemble it: method, base URL,
endpoint path and JSON body.  URL resolution (`urljoin`) is not
modelled; no claim depends on it. -/
structure HttpRequest where
  method : String
  base : String
  path : String
  body : List (String × JVal)
deriving DecidableEq

/-- Outcome of one network exchange as seen through the `requests` and
`aiohttp` libraries: a response with a status code and a parsed JSON
body, a connection-level failure, or a timeout. -/
inductive NetOutcome where
  | response (status : Nat) (data : List (String × String))
  | connError
  | timedOut
deriving DecidableEq

/-- The distinguishable failure outcomes of `SessionManager` methods, one
constructor per distinct raise site (session_manager.py: the
`ConnectionError`, `TimeoutError`, 404 `ValueError`, generic HTTP
`ValueError` and catch-all `ValueError` raises). -/
inductive SMError where
  | connectionError (msg : String)
  | timeoutError (msg : String)
  | sessionNotFound (session_id : String)
  | requestFailed (status : Nat) (data : List (String × String))
  | unexpected (msg : String)
deriving DecidableEq

/-- `requests.Response.raise_for_status` raises `HTTPError` exactly for
client-error and server-error status codes, 400..599.  Informational and
redirect statuses (1xx, 3xx) do not raise. -/
def raise_for_status_errs (status : Nat) : Bool :=
  decide (400 ≤ status) && decide (status < 600)

/-- The dual-field response parsing of `send_message`
(session_manager.py line 146, async_sessions.py line 77):
`data.get("response", data.get("text", ""))`. -/
def extract_response_text (data : List (String × String)) : String :=
  pyGetD data "response" (pyGetD data "text" "")

/-- Outcome handling of `SessionManager.send_message`
(session_manager.py lines 141-160): `raise_for_status`, then parse; a 404
HTTP error raises the session-not-found `ValueError`, any other HTTP
error raises the generic request-failure `ValueError` carrying status and
body. -/
def send_message_result (session_id : String) (out : NetOutcome) :
    Except SMError String :=
  match out with
  | .connError => .error (.connectionError "Cannot connect to ADK Web")
  | .timedOut => .error (.timeoutError "Request timed out")
  | .response status data =>
      if raise_for_status_errs status then
        if status == 404 then .error (.sessionNotFound session_id)
        else .error (.requestFailed status data)
      else
        .ok (extract_response_text data)

/-- The chat request body `{"session_id": ..., "message": ...}` built by
`send_message` (session_manager.py lines 136-139) from the call's own
arguments. -/
def chat_payload (session_id message : String) : List (String × JVal) :=
  [("session_id", JVal.str session_id), ("message", JVal.str message)]

/-- `SessionManager.send_message` as a whole: it builds the payload,
issues exactly one POST to the chat endpoint and classifies the outcome.
The second component is the list of network requests the call issues;
`net` stands for the remote service and the network. -/
def send_message (base session_id message : String)
    (net : HttpRequest → NetOutcome) : Except SMError String × List HttpRequest :=
  let req : HttpRequest := ⟨"POST", base, "/chat", chat_payload session_id message⟩
  (send_message_result session_id (net req), [req])

/-- Outcome handling of `SessionManager.create_session`
(session_manager.py lines 96-113): `raise_for_status`, then
`data["session_id"]` (a missing key falls to the catch-all raise). -/
def create_session_result (out : NetOutcome) : Except SMError String :=
  match out with
  | .connError => .error (.connectionError "Cannot connect to ADK Web")
  | .timedOut => .error (.timeoutError "Request timed out")
  | .response status data =>
      if raise_for_status_errs status then .error (.requestFailed status data)
      else
        match pyGet data "session_id" with
        | some sid => .ok sid
        | none => .error (.unexpected "KeyError: session_id")

/-- `SessionManager.create_session` as a whole (session_manager.py lines
44-113): it builds the state dict, issues exactly one POST of
`{"agent_id": ..., "state": ...}` to the sessions endpoint — there is no
validation branch of any kind before the request — and classifies the
outcome.  The second component lists the network requests the call
issues. -/
def create_session (base agent_id user_name : String)
    (user_email user_preferences : Option String) (kwargs : List (String × String))
    (net : HttpRequest → NetOutcome) : Except SMError String × List HttpRequest :=
  let state := manager_state user_name user_email user_preferences kwargs
  let req : HttpRequest :=
    ⟨"POST", base, "/sessions", [("agent_id", JVal.str agent_id), ("state", JVal.dict state)]⟩
  (create_session_result (net req), [req])

/-- Client-side filtering of `SessionManager.list_sessions`
(session_manager.py lines 183-190): `sessions = data.get("sessions", [])`
has already happened; then `if agent_id:` (string truthiness) guards a
list comprehension keeping the sessions whose `agent_id` field equals the
filter. -/
def list_sessions (agent_id : Option String)
    (sessions : List (List (String × String))) : List (List (String × String)) :=
  if strTruthy agent_id then
    sessions.filter (fun s => pyGet s "agent_id" == agent_id)
  else
    sessions

/-! ## Dict lemmas -/

theorem pyGet_dictSet_ne {α : Type} (d : List (String × α)) (k0 key : String) (v : α)
    (h : k0 ≠ key) : pyGet (dictSet d k0 v) key = pyGet d key := by
  induction d with
  | nil => simp [dictSet, pyGet, h]
  | cons kv rest ih =>
    obtain ⟨k1, v1⟩ := kv
    by_cases h1 : k1 = k0
    · subst h1
      simp [dictSet, pyGet, h]
    · simp [dictSet, pyGet, h1, ih]

theorem pyGet_append {α : Type} (d1 d2 : List (String × α)) (key : String) :
    pyGet (d1 ++ d2) key = (pyGet d1 key).or (pyGet d2 key) := by
  induction d1 with
  | nil => simp [pyGet]
  | cons kv rest ih =>
    obtain ⟨k1, v1⟩ := kv
    by_cases h : k1 = key <;> simp [pyGet, h, ih]

theorem pyGet_single_ne {α : Type} {c : Prop} [Decidable c] {k key : String} (x : α)
    (h : k ≠ key) : pyGet (if c then [(k, x)] else []) key = none := by
  split <;> simp [pyGet, h]

theorem pyGet_dictUpdate_ne {α : Type} (kvs : List (String × α)) :
    ∀ (d : List (String × α)) (key : String),
      kvs.all (fun kv => !(kv.1 == key)) = true →
      pyGet (dictUpdate d kvs) key = pyGet d key := by
  induction kvs with
  | nil => intro d key _; rfl
  | cons kv rest ih =>
    intro d key hall
    simp only [List.all_cons, Bool.and_eq_true] at hall
    have hne : kv.1 ≠ key := by
      have h1 := hall.1
      simpa using h1
    have hstep : dictUpdate d (kv :: rest) = dictUpdate (dictSet d kv.1 kv.2) rest := rfl
    rw [hstep, ih (dictSet d kv.1 kv.2) key hall.2, pyGet_dictSet_ne d kv.1 key kv.2 hne]

/-! ## Claims C5 to C10 -/

/-- Claim C5, counterexample.  The claim asserts that `create_session`
with an empty `user_name` is rejected before any network request is
issued.  The source has no validation branch: with `user_name = ""` the
call still issues exactly one POST, whose state carries
`user_name = ""`. -/
theorem c5_counterexample :
    (create_session "http://localhost:8000" AGENT_ID "" none none []
        (fun _ => NetOutcome.connError)).2 =
      [⟨"POST", "http://localhost:8000", "/sessions",
        [("agent_id", JVal.str AGENT_ID), ("state", JVal.dict [("user_name", "")])]⟩] := by
  rfl

/-- Claim C5, amended.  `create_session` performs no `user_name`
validation at all: for every `user_name`, the empty string included, the
call issues exactly one network request, whose posted state carries the
`user_name` key with exactly the supplied value.  (The hypothesis that
`kwargs` does not contain a `user_name` key is enforced by Python itself:
a duplicate keyword argument is a `TypeError` at the call site.) -/
theorem c5_no_validation (base agent_id user_name : String)
    (user_email user_preferences : Option String) (kwargs : List (String × String))
    (net : HttpRequest → NetOutcome)
    (hk : kwargs.all (fun kv => !(kv.1 == "user_name")) = true) :
    (create_session base agent_id user_name user_email user_preferences kwargs net).2.length
      = 1 ∧
    (∀ req ∈ (create_session base agent_id user_name user_email user_preferences kwargs net).2,
      req.body = [("agent_id", JVal.str agent_id),
        ("state", JVal.dict (manager_state user_name user_email user_preferences kwargs))]) ∧
    pyGet (manager_state user_name user_email user_preferences kwargs) "user_name" =
      some user_name := by
  refine ⟨rfl, ?_, ?_⟩
  · intro req hreq
    simp only [create_session, List.mem_singleton] at hreq
    subst hreq
    rfl
  · rw [manager_state, pyGet_dictUpdate_ne kwargs _ _ hk]
    simp [client_state, pyGet]

/-- Witness for `c5_no_validation` at the empty user name: the request is
issued and its state maps `user_name` to the empty string. -/
theorem c5_no_validation_witness :
    (create_session "http://localhost:8000" AGENT_ID "" none none []
        (fun _ => NetOutcome.connError)).2.length = 1 ∧
    pyGet (manager_state "" none none []) "user_name" = some "" :=
  ⟨(c5_no_validation "http://localhost:8000" AGENT_ID "" none none []
      (fun _ => NetOutcome.connError) (by decide)).1,
   (c5_no_validation "http://localhost:8000" AGENT_ID "" none none []
      (fun _ => NetOutcome.connError) (by decide)).2.2⟩

/-- Claim C6, counterexample.  The claim asserts that every non-2xx
status other than 404 fails with the request-rejected error carrying
status and body.  `raise_for_status` only raises for statuses in
400..599, so a 304 response — not a 2xx — takes the success path and its
body is parsed as a normal reply instead of failing. -/
theorem c6_counterexample :
    (300 ≤ 304 ∧ 304 < 400) ∧
    send_message_result "session-1" (.response 304 [("response", "cached")]) =
      .ok "cached" :=
  ⟨by decide, rfl⟩

/-- Claim C6, amended.  A remote 404 fails with the distinct
session-not-found error kind (a different constructor from the generic
request-rejected kind); every other status in 400..599 fails with
request-rejected carrying the status and body; statuses outside 400..599
(all 1xx/3xx as well as 2xx) take the success path. -/
theorem c6_error_taxonomy (session_id : String) (status : Nat)
    (data : List (String × String)) :
    (status = 404 →
      send_message_result session_id (.response status data) =
        .error (.sessionNotFound session_id)) ∧
    (400 ≤ status → status < 600 → status ≠ 404 →
      send_message_result session_id (.response status data) =
        .error (.requestFailed status data)) ∧
    (status < 400 ∨ 600 ≤ status →
      send_message_result session_id (.response status data) =
        .ok (extract_response_text data)) ∧
    Except.error (ε := SMError) (α := String) (.sessionNotFound session_id) ≠
      Except.error (.requestFailed status data) := by
  refine ⟨?_, ?_, ?_, ?_⟩
  · intro h
    subst h
    rfl
  · intro h1 h2 h3
    have hr : raise_for_status_errs status = true := by
      unfold raise_for_status_errs
      rw [decide_eq_true h1, decide_eq_true h2]
      rfl
    have h4 : (status == 404) = false := by
      simpa using h3
    simp [send_message_result, hr, h4]
  · intro h
    have hr : raise_for_status_errs status = false := by
      rcases h with h | h <;> simp [raise_for_status_errs] <;> omega
    simp [send_message_result, hr]
  · intro h
    simp at h

/-- Witness for `c6_error_taxonomy`: a 404 reply yields the
session-not-found kind and a 500 reply yields the request-rejected kind
with its status and body. -/
theorem c6_error_taxonomy_witness :
    send_message_result "missing-session" (.response 404 []) =
      .error (.sessionNotFound "missing-session") ∧
    send_message_result "missing-session" (.response 500 [("detail", "boom")]) =
      .error (.requestFailed 500 [("detail", "boom")]) :=
  ⟨(c6_error_taxonomy "missing-session" 404 []).1 rfl,
   (c6_error_taxonomy "missing-session" 500 [("detail", "boom")]).2.1
     (by decide) (by decide) (by decide)⟩

/-- Claim C7, confirmed.  On a 2xx chat response, `send_message` returns
the value of the primary `response` field when present, and otherwise the
value of the secondary `text` field. -/
theorem c7_dual_field (session_id : String) (status : Nat)
    (data : List (String × String)) (h2xx : 200 ≤ status ∧ status < 300) :
    (∀ v, pyGet data "response" = some v →
      send_message_result session_id (.response status data) = .ok v) ∧
    (pyGet data "response" = none → ∀ w, pyGet data "text" = some w →
      send_message_result session_id (.response status data) = .ok w) := by
  have hr : raise_for_status_errs status = false := by
    simp [raise_for_status_errs]
    omega
  constructor
  · intro v hv
    simp [send_message_result, hr, extract_response_text, pyGetD, hv]
  · intro hnone w hw
    simp [send_message_result, hr, extract_response_text, pyGetD, hnone, hw]

/-- Witness for `c7_dual_field`: with both fields present the primary
wins; with only the secondary present it is used. -/
theorem c7_dual_field_witness :
    send_message_result "s" (.response 200 [("response", "primary"), ("text", "secondary")]) =
      .ok "primary" ∧
    send_message_result "s" (.response 200 [("text", "secondary")]) = .ok "secondary" :=
  ⟨(c7_dual_field "s" 200 [("response", "primary"), ("text", "secondary")]
      ⟨by decide, by decide⟩).1 "primary" (by decide),
   (c7_dual_field "s" 200 [("text", "secondary")]
      ⟨by decide, by decide⟩).2 (by decide) "secondary" (by decide)⟩

/-- Claim C8, counterexample.  The claim asserts that for every filter
argument the result is exactly the subsequence whose `agent_id` equals
the filter.  The guard is Python truthiness, so the empty-string filter
is treated as no filter: the full list comes back even though no session
has `agent_id = ""` (the claimed subsequence is empty). -/
theorem c8_counterexample :
    list_sessions (some "") [[("agent_id", "agent-x")]] = [[("agent_id", "agent-x")]] ∧
    List.filter (fun s => pyGet s "agent_id" == some "")
        [[("agent_id", "agent-x")]] = [] :=
  ⟨rfl, rfl⟩

/-- Claim C8, amended.  With a non-empty agent filter the result is
exactly the subsequence of the remote list whose `agent_id` equals the
filter, computed client-side with order preserved (a sublist of the
input); with no filter, or with the falsy empty-string filter, the full
remote list is returned unchanged. -/
theorem c8_client_filter (aid : String) (sessions : List (List (String × String)))
    (hne : aid ≠ "") :
    list_sessions (some aid) sessions =
      sessions.filter (fun s => pyGet s "agent_id" == some aid) ∧
    list_sessions none sessions = sessions ∧
    list_sessions (some "") sessions = sessions ∧
    (list_sessions (some aid) sessions).Sublist sessions := by
  have ht : strTruthy (some aid) = true := by
    simp [strTruthy, hne]
  refine ⟨?_, rfl, rfl, ?_⟩
  · simp [list_sessions, ht]
  · simp only [list_sessions, ht, if_true]
    exact List.filter_sublist sessions

/-- Sessions used by the `c8_client_filter` witness. -/
def c8Sessions : List (List (String × String)) :=
  [[("agent_id", "agent-a"), ("session_id", "s1")],
   [("agent_id", "agent-b"), ("session_id", "s2")]]

/-- Witness for `c8_client_filter`: filtering two sessions of different
agents by one agent id keeps exactly the matching session. -/
theorem c8_client_filter_witness :
    list_sessions (some "agent-a") c8Sessions =
      [[("agent_id", "agent-a"), ("session_id", "s1")]] :=
  ((c8_client_filter "agent-a" c8Sessions (by decide)).1).trans (by decide)

/-- Claim C9, confirmed.  The chat request body is exactly the
two-field dict built from the call's own session id and message: two runs
agreeing on those two arguments produce identical bodies, whatever the
base URL and whatever the network and every other session's state or
history (`net` absorbs all of them) — no other session's data can appear
in the request. -/
theorem c9_state_isolation (base1 base2 session_id message : String)
    (net1 net2 : HttpRequest → NetOutcome) :
    ((send_message base1 session_id message net1).2.map HttpRequest.body) =
      [chat_payload session_id message] ∧
    ((send_message base2 session_id message net2).2.map HttpRequest.body) =
      ((send_message base1 session_id message net1).2.map HttpRequest.body) :=
  ⟨rfl, rfl⟩

/-- Claim C10, counterexample.  The claim asserts that an optional state
key with an empty-string value is silently omitted from the request
payload.  `SessionManager.create_session` merges extra keyword arguments
with `state.update(kwargs)` unconditionally: a `conversation_context`
supplied through `kwargs` with the empty-string value is posted. -/
theorem c10_counterexample :
    (create_session "http://localhost:8000" AGENT_ID "Alice" none none
        [("conversation_context", "")] (fun _ => NetOutcome.connError)).2.map
      (fun req => req.body) =
      [[("agent_id", JVal.str AGENT_ID),
        ("state", JVal.dict [("user_name", "Alice"), ("conversation_context", "")])]] := by
  rfl

/-- Claim C10, amended.  A declared optional parameter (`user_email`,
`user_preferences`, and `conversation_context` where declared) is present
in the built state exactly when its value is truthy — in particular a
`None` or empty-string value is omitted — and `user_name` is always
present with the supplied value; however, an extra state key passed to
`SessionManager.create_session` through `kwargs` is merged
unconditionally, empty-string values included. -/
theorem c10_truthiness_filter (user_name : String)
    (user_email user_preferences conversation_context : Option String) (v : String) :
    pyGet (cli_state user_name user_email user_preferences conversation_context)
        "user_name" = some user_name ∧
    pyGet (cli_state user_name user_email user_preferences conversation_context)
        "user_email" = (if strTruthy user_email then user_email else none) ∧
    pyGet (cli_state user_name user_email user_preferences conversation_context)
        "user_preferences" = (if strTruthy user_preferences then user_preferences else none) ∧
    pyGet (cli_state user_name user_email user_preferences conversation_context)
        "conversation_context" =
      (if strTruthy conversation_context then conversation_context else none) ∧
    pyGet (manager_state user_name none none [("conversation_context", v)])
        "conversation_context" = some v := by
  refine ⟨?_, ?_, ?_, ?_, ?_⟩
  · simp [cli_state, client_state, pyGet]
  · cases user_email with
    | none =>
      simp [cli_state, client_state, strTruthy, pyGet_append, pyGet, pyGet_single_ne]
    | some e =>
      by_cases he : e = "" <;>
        simp [cli_state, client_state, strTruthy, optVal, pyGet_append, pyGet,
          pyGet_single_ne, he]
  · cases user_preferences with
    | none =>
      simp [cli_state, client_state, strTruthy, pyGet_append, pyGet, pyGet_single_ne]
    | some p =>
      by_cases hp : p = "" <;>
        simp [cli_state, client_state, strTruthy, optVal, pyGet_append, pyGet,
          pyGet_single_ne, hp]
  · cases conversation_context with
    | none =>
      simp [cli_state, client_state, strTruthy, pyGet_append, pyGet, pyGet_single_ne]
    | some c =>
      by_cases hc : c = "" <;>
        simp [cli_state, client_state, strTruthy, optVal, pyGet_append, pyGet,
          pyGet_single_ne, hc]
  · simp [manager_state, client_state, strTruthy, dictUpdate, dictSet, pyGet]
